import Mathlib

/-!
Shallow embedding of `light/Lights.cpp` from the
`android_device_xiaomi_msm8998-common` device tree: the light-arbitration
service (`Lights::setLightState`, `Lights::getLights`) together with the
brightness/luma translation and the blink-program generation of the
notification-style handler.

Hardware attribute writes are modelled as a trace: a handler invocation
produces the ordered list of `(path, value)` pairs the C++ code passes to
`set(path, value)` (with integers rendered through `std::to_string`, i.e.
`toString`).  Handler identity (function pointers compared with `==` in the
C++) is modelled as a closed enumeration `HandlerKind`, one tag per distinct
handler function.
-/

namespace Lights

/-- Numeric class identifiers of `android.hardware.light.LightType`.
The AIDL definition is not part of this repository's sources; the values
are the platform constants the `static_cast<LightType>(id)` in
`Lights::setLightState` refers to.  Only their distinctness matters to the
claims. -/
abbrev LightType := Int

def BACKLIGHT : LightType := 0
def KEYBOARD : LightType := 1
def BUTTONS : LightType := 2
def BATTERY : LightType := 3
def NOTIFICATIONS : LightType := 4
def ATTENTION : LightType := 5

/-- `FlashMode` of the AIDL interface; the code only distinguishes
`TIMED` from everything else. -/
inductive FlashMode where
  | NONE
  | TIMED
  | HARDWARE
deriving DecidableEq, Repr

/-- `HwLightState`: 32-bit packed AARRGGBB color (modelled as the unsigned
bit pattern), flash mode, flash timings (C++ `int32_t`), and the brightness
mode field the core logic never reads. -/
structure HwLightState where
  color : Nat
  flashMode : FlashMode
  flashOnMs : Int
  flashOffMs : Int
  brightnessMode : Int
deriving DecidableEq, Repr

/-- The three distinct handler functions of the source, as a closed tag set
(see the design note on replacing function-pointer identity by a
handler-kind enumeration). -/
inductive HandlerKind where
  | notificationStyle
  | backlight
  | buttons
deriving DecidableEq, Repr

/-- One entry of the `backends` table: type tag, handler, cached state. -/
structure LightBackend where
  type : LightType
  handler : HandlerKind
  state : HwLightState
deriving DecidableEq, Repr

/-- One hardware attribute write: `set(path, value)`.  Integer overloads go
through `std::to_string`, so every value is recorded as a string. -/
structure Write where
  path : String
  value : String
deriving DecidableEq, Repr

def LEDS : String := "/sys/class/leds/"
def BUTTON1_LED : String := LEDS ++ "button-backlight1/"
def BUTTON_LED : String := LEDS ++ "button-backlight/"
def LCD_LED : String := LEDS ++ "lcd-backlight/"
def WHITE_LED : String := LEDS ++ "white/"

def BLINK : String := "blink"
def BRIGHTNESS : String := "brightness"
def DUTY_PCTS : String := "duty_pcts"
def PAUSE_HI : String := "pause_hi"
def PAUSE_LO : String := "pause_lo"
def RAMP_STEP_MS : String := "ramp_step_ms"
def START_IDX : String := "start_idx"

def MAX_LED_BRIGHTNESS : Nat := 255
def MAX_LCD_BRIGHTNESS : Nat := 4095

/-- 8 duty percent steps. -/
def RAMP_STEPS : Nat := 8

/-- Each step will stay on for 50ms by default. -/
def RAMP_STEP_DURATION : Int := 50

/-- Duty percent (0 - 100) per step of the led pwm ramp. -/
def BRIGHTNESS_RAMP : List Nat := [0, 12, 25, 37, 50, 72, 85, 100]

/-- `set(path, int)` -- the integer overload stringifies its value. -/
def setInt (path : String) (value : Int) : Write :=
  ⟨path, toString value⟩

def setNat (path : String) (value : Nat) : Write :=
  ⟨path, toString value⟩

/-- `getBrightness`: extract AARRGGBB components, alpha-scale the RGB when
alpha is not 0xFF, then take the fixed-point luma `(77 r + 150 g + 29 b) >> 8`.
All C++ arithmetic here is `uint32_t` and never overflows, so `Nat`
arithmetic is exact. -/
def getBrightness (state : HwLightState) : Nat :=
  let alpha := (state.color >>> 24) &&& 0xFF
  let red := (state.color >>> 16) &&& 0xFF
  let green := (state.color >>> 8) &&& 0xFF
  let blue := state.color &&& 0xFF
  let red := if alpha ≠ 0xFF then red * alpha / 0xFF else red
  let green := if alpha ≠ 0xFF then green * alpha / 0xFF else green
  let blue := if alpha ≠ 0xFF then blue * alpha / 0xFF else blue
  (77 * red + 150 * green + 29 * blue) >>> 8

def scaleBrightness (brightness maxBrightness : Nat) : Nat :=
  brightness * maxBrightness / 0xFF

def getScaledBrightness (state : HwLightState) (maxBrightness : Nat) : Nat :=
  scaleBrightness (getBrightness state) maxBrightness

/-- `handleBacklight`: one write of the 12-bit scaled brightness. -/
def handleBacklight (state : HwLightState) : List Write :=
  let brightness := getScaledBrightness state MAX_LCD_BRIGHTNESS
  [setNat (LCD_LED ++ BRIGHTNESS) brightness]

/-- `handleButtons`: the same 8-bit scaled brightness written to both
button-backlight zones. -/
def handleButtons (state : HwLightState) : List Write :=
  let brightness := getScaledBrightness state MAX_LED_BRIGHTNESS
  [setNat (BUTTON_LED ++ BRIGHTNESS) brightness,
   setNat (BUTTON1_LED ++ BRIGHTNESS) brightness]

/-- The duty-cycle values of `getScaledRamp`, before joining with commas. -/
def getScaledRampValues (brightness : Nat) : List Nat :=
  BRIGHTNESS_RAMP.map (fun step => step * brightness / 0xFF)

/-- `getScaledRamp`: comma-separated scaled duty percentages. -/
def getScaledRamp (brightness : Nat) : String :=
  String.intercalate "," ((getScaledRampValues brightness).map toString)

/-- The `stepDuration`/`pauseHi`/`pauseLo` computation of the TIMED branch of
`handleNotification`.  `Int.tdiv` is C++ signed division (truncation toward
zero). -/
def rampTimings (flashOnMs flashOffMs : Int) : Int × Int × Int :=
  let stepDuration : Int := RAMP_STEP_DURATION
  let pauseHi : Int := flashOnMs - (stepDuration * RAMP_STEPS * 2)
  let pauseLo : Int := flashOffMs
  if pauseHi < 0 then
    (Int.tdiv flashOnMs (RAMP_STEPS * 2), 0, pauseLo)
  else
    (stepDuration, pauseHi, pauseLo)

/-- `handleNotification`: disable blinking, then either program and arm the
blink ramp (TIMED) or write a static brightness. -/
def handleNotification (state : HwLightState) : List Write :=
  let whiteBrightness := getScaledBrightness state MAX_LED_BRIGHTNESS
  setInt (WHITE_LED ++ BLINK) 0 ::
    (if state.flashMode = FlashMode.TIMED then
      let t := rampTimings state.flashOnMs state.flashOffMs
      [setNat (WHITE_LED ++ START_IDX) (0 * RAMP_STEPS),
       ⟨WHITE_LED ++ DUTY_PCTS, getScaledRamp whiteBrightness⟩,
       setInt (WHITE_LED ++ PAUSE_LO) t.2.2,
       setInt (WHITE_LED ++ PAUSE_HI) t.2.1,
       setInt (WHITE_LED ++ RAMP_STEP_MS) t.1,
       setInt (WHITE_LED ++ BLINK) 1]
    else
      [setNat (WHITE_LED ++ BRIGHTNESS) whiteBrightness])

/-- Dispatch through a handler tag (function-pointer call in the C++). -/
def applyHandler : HandlerKind → HwLightState → List Write
  | HandlerKind.notificationStyle, s => handleNotification s
  | HandlerKind.backlight, s => handleBacklight s
  | HandlerKind.buttons, s => handleButtons s

/-- `isLit`: the RGB mask of the color is non-zero. -/
def isLit (state : HwLightState) : Bool :=
  state.color &&& 0x00ffffff != 0

/-- The all-zero `HwLightState` the `backends` vector starts with. -/
def initState : HwLightState :=
  ⟨0, FlashMode.NONE, 0, 0, 0⟩

/-- The `backends` table at startup.  Kept sorted in the order of
importance. -/
def backendsInit : List LightBackend :=
  [⟨ATTENTION, HandlerKind.notificationStyle, initState⟩,
   ⟨NOTIFICATIONS, HandlerKind.notificationStyle, initState⟩,
   ⟨BATTERY, HandlerKind.notificationStyle, initState⟩,
   ⟨BACKLIGHT, HandlerKind.backlight, initState⟩,
   ⟨BUTTONS, HandlerKind.buttons, initState⟩]

/-- The standard table shape with arbitrary cached states, used to quantify
over every table reachable from `backendsInit`. -/
def backendsWith (sA sN sB sL sBtn : HwLightState) : List LightBackend :=
  [⟨ATTENTION, HandlerKind.notificationStyle, sA⟩,
   ⟨NOTIFICATIONS, HandlerKind.notificationStyle, sN⟩,
   ⟨BATTERY, HandlerKind.notificationStyle, sB⟩,
   ⟨BACKLIGHT, HandlerKind.backlight, sL⟩,
   ⟨BUTTONS, HandlerKind.buttons, sBtn⟩]

/-- The first loop of `setLightState`: overwrite the cached state of every
entry whose type matches. -/
def updateStates (backends : List LightBackend) (type : LightType)
    (state : HwLightState) : List LightBackend :=
  backends.map (fun b => if b.type = type then { b with state := state } else b)

/-- The `handler` variable after the first loop of `setLightState`: the
handler of the last matching entry, `none` when no entry matches
(`nullptr`). -/
def findHandler (backends : List LightBackend) (type : LightType) :
    Option HandlerKind :=
  backends.foldl (fun acc b => if b.type = type then some b.handler else acc) none

/-- The second loop of `setLightState`: the first entry sharing the handler
whose cached state is lit. -/
def firstLit (backends : List LightBackend) (handler : HandlerKind) :
    Option LightBackend :=
  backends.find? (fun b => b.handler = handler ∧ isLit b.state)

/-- Status of a `ndk::ScopedAStatus` result of the service surface. -/
inductive Status where
  | ok
  | unsupportedOperation
deriving DecidableEq, Repr

/-- Result of one `Lights::setLightState` call: the table after the call,
the returned status, and the trace of attribute writes performed. -/
structure SetResult where
  backends : List LightBackend
  status : Status
  writes : List Write
deriving Repr

/-- `Lights::setLightState`: update the cached state for the type, fail with
`EX_UNSUPPORTED_OPERATION` when no entry matched, otherwise render the
highest-priority lit sibling of the handler, or the just-written state when
none is lit. -/
def setLightState (backends : List LightBackend) (id : Int)
    (state : HwLightState) : SetResult :=
  let type : LightType := id
  let backends := updateStates backends type state
  match findHandler backends type with
  | none => ⟨backends, Status.unsupportedOperation, []⟩
  | some handler =>
    match firstLit backends handler with
    | some backend => ⟨backends, Status.ok, applyHandler handler backend.state⟩
    | none => ⟨backends, Status.ok, applyHandler handler state⟩

/-- One element of the list `Lights::getLights` fills in. -/
structure HwLight where
  id : Int
  type : LightType
  ordinal : Int
deriving DecidableEq, Repr

/-- `Lights::getLights`: enumerate the table with running ordinals. -/
def getLights (backends : List LightBackend) : List HwLight :=
  (backends.enum.map (fun p => ⟨p.2.type, p.2.type, (p.1 : Int)⟩) : List HwLight)

/-- A packed AARRGGBB color built from its four 8-bit components. -/
def packColor (alpha red green blue : Nat) : Nat :=
  alpha * 2 ^ 24 + red * 2 ^ 16 + green * 2 ^ 8 + blue

/-- The per-channel alpha dimming step of `getBrightness`. -/
def alphaScale (c alpha : Nat) : Nat :=
  if alpha = 255 then c else c * alpha / 255

/-- A lit request (solid red, full alpha). -/
def redState : HwLightState := ⟨0xFFFF0000, FlashMode.NONE, 0, 0, 0⟩

/-- Another lit request (solid blue, full alpha). -/
def blueState : HwLightState := ⟨0xFF0000FF, FlashMode.NONE, 0, 0, 0⟩

/-- An unlit request: full alpha but zero RGB. -/
def offState : HwLightState := ⟨0xFF000000, FlashMode.NONE, 0, 0, 0⟩

/-- A lit TIMED request. -/
def timedState : HwLightState := ⟨0xFFFF0000, FlashMode.TIMED, 1000, 300, 0⟩

end Lights

namespace Lights

/-! ### Helper lemmas -/

lemma land_ff_eq_mod (x : Nat) : x &&& 0xFF = x % 256 := by
  simpa using Nat.and_pow_two_sub_one_eq_mod x 8

/-! ### Claims -/

/-- C3: the brightness translator extracts the ARGB components, alpha-scales
the RGB channels when alpha is not 0xFF, takes the truncating fixed-point
luma `(77 r + 150 g + 29 b) / 256`, and scales it by `maxBrightness / 255`;
color 0xFF000000 yields 0 in both ranges and 0xFFFFFFFF yields 255 resp.
4095. -/
theorem getScaledBrightness_spec :
    (∀ (s : HwLightState) (maxB : Nat),
      getScaledBrightness s maxB =
        (let alpha := s.color / 2 ^ 24 % 256
         let red := s.color / 2 ^ 16 % 256
         let green := s.color / 2 ^ 8 % 256
         let blue := s.color % 256
         let red := if alpha = 0xFF then red else red * alpha / 0xFF
         let green := if alpha = 0xFF then green else green * alpha / 0xFF
         let blue := if alpha = 0xFF then blue else blue * alpha / 0xFF
         (77 * red + 150 * green + 29 * blue) / 256 * maxB / 255)) ∧
    getScaledBrightness ⟨0xFF000000, FlashMode.NONE, 0, 0, 0⟩ 255 = 0 ∧
    getScaledBrightness ⟨0xFF000000, FlashMode.NONE, 0, 0, 0⟩ 4095 = 0 ∧
    getScaledBrightness ⟨0xFFFFFFFF, FlashMode.NONE, 0, 0, 0⟩ 255 = 255 ∧
    getScaledBrightness ⟨0xFFFFFFFF, FlashMode.NONE, 0, 0, 0⟩ 4095 = 4095 := by
  refine ⟨?_, by decide, by decide, by decide, by decide⟩
  intro s maxB
  unfold getScaledBrightness getBrightness scaleBrightness
  simp only [Nat.shiftRight_eq_div_pow, land_ff_eq_mod, ne_eq, ite_not]

/-- C5: the duty-cycle ramp has exactly 8 entries, the i-th being
`pct_i * b / 255` for the percentage table 0,12,25,37,50,72,85,100; at
brightness 200 the rendered string is the comma-separated list of those
values. -/
theorem getScaledRamp_spec :
    (∀ b : Nat,
      getScaledRampValues b =
        [0, 12 * b / 255, 25 * b / 255, 37 * b / 255, 50 * b / 255,
         72 * b / 255, 85 * b / 255, 100 * b / 255] ∧
      (getScaledRampValues b).length = 8 ∧
      getScaledRamp b =
        String.intercalate "," ((getScaledRampValues b).map toString)) ∧
    getScaledRampValues 200 = [0, 9, 19, 29, 39, 56, 66, 78] ∧
    getScaledRamp 200 = "0,9,19,29,39,56,66,78" := by
  refine ⟨?_, by decide, by decide⟩
  intro b
  refine ⟨?_, rfl, rfl⟩
  simp [getScaledRampValues, BRIGHTNESS_RAMP]

/-- C4: in the TIMED blink path, `pauseHi = flashOnMs - 50*8*2` with
`stepDuration = 50`; when that is negative, `stepDuration = flashOnMs / 16`
(truncating division) and `pauseHi = 0`; `pauseLo` is always `flashOffMs`;
the TIMED branch of `handleNotification` writes exactly these values to
`pause_lo`, `pause_hi` and `ramp_step_ms`; concretely 1000 ↦ (50, 200) and
100 ↦ (6, 0). -/
theorem rampTimings_spec :
    (∀ flashOnMs flashOffMs : Int,
      (0 ≤ flashOnMs - 50 * 8 * 2 →
        rampTimings flashOnMs flashOffMs =
          (50, flashOnMs - 50 * 8 * 2, flashOffMs)) ∧
      (flashOnMs - 50 * 8 * 2 < 0 →
        rampTimings flashOnMs flashOffMs =
          (Int.tdiv flashOnMs 16, 0, flashOffMs)) ∧
      (rampTimings flashOnMs flashOffMs).2.2 = flashOffMs) ∧
    (∀ s : HwLightState, s.flashMode = FlashMode.TIMED →
      (handleNotification s)[3]? =
        some (setInt (WHITE_LED ++ PAUSE_LO)
          (rampTimings s.flashOnMs s.flashOffMs).2.2) ∧
      (handleNotification s)[4]? =
        some (setInt (WHITE_LED ++ PAUSE_HI)
          (rampTimings s.flashOnMs s.flashOffMs).2.1) ∧
      (handleNotification s)[5]? =
        some (setInt (WHITE_LED ++ RAMP_STEP_MS)
          (rampTimings s.flashOnMs s.flashOffMs).1)) ∧
    rampTimings 1000 300 = (50, 200, 300) ∧
    rampTimings 100 300 = (6, 0, 300) := by
  refine ⟨?_, ?_, by decide, by decide⟩
  · intro flashOnMs flashOffMs
    refine ⟨fun h => ?_, fun h => ?_, ?_⟩
    · rw [rampTimings]
      norm_num [RAMP_STEP_DURATION, RAMP_STEPS]
      omega
    · rw [rampTimings]
      norm_num [RAMP_STEP_DURATION, RAMP_STEPS]
      omega
    · rw [rampTimings]
      norm_num [RAMP_STEP_DURATION, RAMP_STEPS]
      split <;> rfl
  · intro s hmode
    rw [handleNotification, if_pos hmode]
    exact ⟨rfl, rfl, rfl⟩

/-- C8: every notification-style render starts with the `blink = 0` disable
write; in the TIMED branch the `blink = 1` enable is the last of the seven
writes, strictly after the five program-parameter writes; in the non-TIMED
branch only a static scaled brightness follows the disable. -/
theorem handleNotification_order (s : HwLightState) :
    (handleNotification s).head? = some (setInt (WHITE_LED ++ BLINK) 0) ∧
    (s.flashMode = FlashMode.TIMED →
      handleNotification s =
        [setInt (WHITE_LED ++ BLINK) 0,
         setNat (WHITE_LED ++ START_IDX) 0,
         ⟨WHITE_LED ++ DUTY_PCTS,
           getScaledRamp (getScaledBrightness s MAX_LED_BRIGHTNESS)⟩,
         setInt (WHITE_LED ++ PAUSE_LO) (rampTimings s.flashOnMs s.flashOffMs).2.2,
         setInt (WHITE_LED ++ PAUSE_HI) (rampTimings s.flashOnMs s.flashOffMs).2.1,
         setInt (WHITE_LED ++ RAMP_STEP_MS) (rampTimings s.flashOnMs s.flashOffMs).1,
         setInt (WHITE_LED ++ BLINK) 1]) ∧
    (s.flashMode ≠ FlashMode.TIMED →
      handleNotification s =
        [setInt (WHITE_LED ++ BLINK) 0,
         setNat (WHITE_LED ++ BRIGHTNESS) (getScaledBrightness s MAX_LED_BRIGHTNESS)]) := by
  refine ⟨?_, fun h => ?_, fun h => ?_⟩
  · rw [handleNotification]
    split <;> rfl
  · rw [handleNotification, if_pos h]
    rfl
  · rw [handleNotification, if_neg h]

/-- C8 witness: both branches evaluated at concrete states. -/
theorem handleNotification_order_witness :
    handleNotification timedState =
      [setInt (WHITE_LED ++ BLINK) 0,
       setNat (WHITE_LED ++ START_IDX) 0,
       ⟨WHITE_LED ++ DUTY_PCTS,
         getScaledRamp (getScaledBrightness timedState MAX_LED_BRIGHTNESS)⟩,
       setInt (WHITE_LED ++ PAUSE_LO) (rampTimings timedState.flashOnMs timedState.flashOffMs).2.2,
       setInt (WHITE_LED ++ PAUSE_HI) (rampTimings timedState.flashOnMs timedState.flashOffMs).2.1,
       setInt (WHITE_LED ++ RAMP_STEP_MS) (rampTimings timedState.flashOnMs timedState.flashOffMs).1,
       setInt (WHITE_LED ++ BLINK) 1] ∧
    handleNotification redState =
      [setInt (WHITE_LED ++ BLINK) 0,
       setNat (WHITE_LED ++ BRIGHTNESS) (getScaledBrightness redState MAX_LED_BRIGHTNESS)] :=
  ⟨(handleNotification_order timedState).2.1 rfl,
   (handleNotification_order redState).2.2 (by decide)⟩

/-- C4 witness: the quantified part applied at flashOnMs 1000 and at a
concrete TIMED state. -/
theorem rampTimings_spec_witness :
    rampTimings 1000 300 = (50, 1000 - 50 * 8 * 2, 300) ∧
    (handleNotification timedState)[4]? =
      some (setInt (WHITE_LED ++ PAUSE_HI)
        (rampTimings timedState.flashOnMs timedState.flashOffMs).2.1) :=
  ⟨(rampTimings_spec.1 1000 300).1 (by decide),
   ((rampTimings_spec.2.1 timedState rfl).2.1)⟩

end Lights

namespace Lights

/-! ### Structural lemmas about `setLightState` -/

/-- The state-update loop never touches the `type` and `handler` fields. -/
lemma updateStates_getElem? (bs : List LightBackend) (t : LightType)
    (s : HwLightState) (i : Nat) :
    (updateStates bs t s)[i]? =
      (bs[i]?).map (fun b => if b.type = t then { b with state := s } else b) := by
  simp [updateStates, List.getElem?_map]

lemma updateStates_length (bs : List LightBackend) (t : LightType)
    (s : HwLightState) : (updateStates bs t s).length = bs.length := by
  simp [updateStates]

/-- Overwriting the same type with the same state twice is the same as
doing it once. -/
lemma updateStates_idem (bs : List LightBackend) (t : LightType)
    (s : HwLightState) :
    updateStates (updateStates bs t s) t s = updateStates bs t s := by
  unfold updateStates
  rw [List.map_map]
  apply List.map_congr_left
  intro b _
  by_cases hb : b.type = t <;> simp [hb]

/-- `findHandler` only reads the immutable fields, so the state-update loop
does not change it. -/
lemma findHandler_updateStates (bs : List LightBackend) (t t' : LightType)
    (s : HwLightState) :
    findHandler (updateStates bs t s) t' = findHandler bs t' := by
  unfold findHandler updateStates
  rw [List.foldl_map]
  congr 1
  funext acc b
  by_cases hb : b.type = t <;> simp [hb]

lemma findHandler_none_forall (bs : List LightBackend) (t : LightType)
    (h : findHandler bs t = none) : ∀ b ∈ bs, b.type ≠ t := by
  unfold findHandler at h
  suffices H : ∀ (bs : List LightBackend) (acc : Option HandlerKind),
      bs.foldl (fun acc b => if b.type = t then some b.handler else acc) acc = none →
      ∀ b ∈ bs, b.type ≠ t by
    exact H bs none h
  intro bs
  induction bs with
  | nil => simp
  | cons b rest ih =>
    intro acc hfold
    simp only [List.foldl_cons] at hfold
    intro c hc
    rcases List.mem_cons.mp hc with rfl | hc
    · intro hct
      rw [if_pos hct] at hfold
      have : ∀ (l : List LightBackend) (h0 : HandlerKind),
          l.foldl (fun acc b => if b.type = t then some b.handler else acc)
            (some h0) ≠ none := by
        intro l
        induction l with
        | nil => simp
        | cons d l ihl =>
          intro h0
          simp only [List.foldl_cons]
          by_cases hd : d.type = t
          · rw [if_pos hd]; exact ihl d.handler
          · rw [if_neg hd]; exact ihl h0
      exact this rest _ hfold
    · exact ih _ hfold c hc

/-- When no entry matches the requested type, the update loop is the
identity. -/
lemma updateStates_no_match (bs : List LightBackend) (t : LightType)
    (s : HwLightState) (h : ∀ b ∈ bs, b.type ≠ t) :
    updateStates bs t s = bs := by
  unfold updateStates
  conv_rhs => rw [← List.map_id bs]
  apply List.map_congr_left
  intro b hb
  rw [if_neg (h b hb)]
  rfl

/-- The table returned by `setLightState` is always the updated table. -/
lemma setLightState_backends (bs : List LightBackend) (id : Int)
    (s : HwLightState) :
    (setLightState bs id s).backends = updateStates bs id s := by
  cases hf : findHandler (updateStates bs id s) id with
  | none => simp [setLightState, hf]
  | some h =>
    cases hl : firstLit (updateStates bs id s) h <;> simp [setLightState, hf, hl]

/-- Branch equation: a lit sibling is found. -/
lemma setLightState_found_lit (bs : List LightBackend) (id : Int)
    (s : HwLightState) (h : HandlerKind) (b : LightBackend)
    (hh : findHandler (updateStates bs id s) id = some h)
    (hl : firstLit (updateStates bs id s) h = some b) :
    setLightState bs id s =
      ⟨updateStates bs id s, Status.ok, applyHandler h b.state⟩ := by
  unfold setLightState
  simp only [hh, hl]

/-- Branch equation: no lit sibling, the just-written state is rendered. -/
lemma setLightState_found_unlit (bs : List LightBackend) (id : Int)
    (s : HwLightState) (h : HandlerKind)
    (hh : findHandler (updateStates bs id s) id = some h)
    (hl : firstLit (updateStates bs id s) h = none) :
    setLightState bs id s =
      ⟨updateStates bs id s, Status.ok, applyHandler h s⟩ := by
  unfold setLightState
  simp only [hh, hl]

/-- Branch equation: unsupported type. -/
lemma setLightState_no_handler (bs : List LightBackend) (id : Int)
    (s : HwLightState)
    (hh : findHandler (updateStates bs id s) id = none) :
    setLightState bs id s = ⟨bs, Status.unsupportedOperation, []⟩ := by
  unfold setLightState
  simp only [hh]
  rw [updateStates_no_match bs id s
    (findHandler_none_forall bs id ((findHandler_updateStates bs id id s).symm.trans hh))]

end Lights

namespace Lights

/-- C6: `setLightState` on a class identifier outside the fixed supported
set returns the unsupported-operation failure, performs no write, and
leaves every stored state unchanged; in particular the KEYBOARD identifier
is not in the table. -/
theorem setLightState_unsupported :
    (∀ (bs : List LightBackend) (id : Int) (s : HwLightState),
      findHandler bs id = none →
      setLightState bs id s = ⟨bs, Status.unsupportedOperation, []⟩) ∧
    (∀ s : HwLightState,
      setLightState backendsInit KEYBOARD s =
        ⟨backendsInit, Status.unsupportedOperation, []⟩) := by
  have gen : ∀ (bs : List LightBackend) (id : Int) (s : HwLightState),
      findHandler bs id = none →
      setLightState bs id s = ⟨bs, Status.unsupportedOperation, []⟩ := by
    intro bs id s hnone
    exact setLightState_no_handler bs id s
      ((findHandler_updateStates bs id id s).trans hnone)
  exact ⟨gen, fun s => gen backendsInit KEYBOARD s rfl⟩

/-- C6 witness: the KEYBOARD identifier (1) is rejected and the initial
table survives unchanged. -/
theorem setLightState_unsupported_witness :
    findHandler backendsInit KEYBOARD = none ∧
    setLightState backendsInit KEYBOARD offState =
      ⟨backendsInit, Status.unsupportedOperation, []⟩ :=
  ⟨by decide,
   setLightState_unsupported.1 backendsInit KEYBOARD offState (by decide)⟩

/-- C9: `getLights` lists the five classes in the order ATTENTION,
NOTIFICATIONS, BATTERY, BACKLIGHT, BUTTONS with ordinals 0..4 whatever the
cached states are, and `setLightState` never changes what `getLights`
returns. -/
theorem getLights_spec :
    (∀ sA sN sB sL sBtn : HwLightState,
      getLights (backendsWith sA sN sB sL sBtn) =
        [⟨ATTENTION, ATTENTION, 0⟩, ⟨NOTIFICATIONS, NOTIFICATIONS, 1⟩,
         ⟨BATTERY, BATTERY, 2⟩, ⟨BACKLIGHT, BACKLIGHT, 3⟩,
         ⟨BUTTONS, BUTTONS, 4⟩]) ∧
    (∀ (bs : List LightBackend) (id : Int) (s : HwLightState),
      getLights (setLightState bs id s).backends = getLights bs) := by
  constructor
  · intro sA sN sB sL sBtn
    rfl
  · intro bs id s
    rw [setLightState_backends]
    unfold getLights updateStates
    rw [List.enum_map, List.map_map]
    apply List.map_congr_left
    intro p _
    by_cases hp : p.2.type = id <;> simp [hp, Prod.map]

/-- C10: a successful `setLightState` call only rewrites the cached state of
the entries whose type is the requested one; every other entry, and every
type tag and handler assignment, is exactly as before. -/
theorem setLightState_frame :
    ∀ (bs : List LightBackend) (id : Int) (s : HwLightState),
      (setLightState bs id s).status = Status.ok →
      (setLightState bs id s).backends.length = bs.length ∧
      ∀ (i : Nat) (b : LightBackend), bs[i]? = some b →
        (setLightState bs id s).backends[i]? =
          some (if b.type = id then { b with state := s } else b) := by
  intro bs id s _
  rw [setLightState_backends]
  refine ⟨updateStates_length bs id s, ?_⟩
  intro i b hb
  rw [updateStates_getElem?, hb]
  rfl

/-- C10 witness: updating BATTERY in the initial table succeeds, keeps the
length, and leaves the ATTENTION entry untouched. -/
theorem setLightState_frame_witness :
    (setLightState backendsInit BATTERY redState).status = Status.ok ∧
    (setLightState backendsInit BATTERY redState).backends.length =
      backendsInit.length ∧
    (setLightState backendsInit BATTERY redState).backends[0]? =
      some ⟨ATTENTION, HandlerKind.notificationStyle, initState⟩ := by
  have h := setLightState_frame backendsInit BATTERY redState (by decide)
  exact ⟨by decide, h.1, by decide⟩

/-- C2: when, after the update, no entry sharing the handler is lit,
`setLightState` renders exactly the just-written state and succeeds, and
repeating the same call is idempotent: same table, same status, same
writes. -/
theorem setLightState_off_idempotent (bs : List LightBackend) (id : Int)
    (s : HwLightState) (h : HandlerKind)
    (hh : findHandler (updateStates bs id s) id = some h)
    (hl : firstLit (updateStates bs id s) h = none) :
    (setLightState bs id s).writes = applyHandler h s ∧
    (setLightState bs id s).status = Status.ok ∧
    setLightState (setLightState bs id s).backends id s =
      setLightState bs id s := by
  have r1 := setLightState_found_unlit bs id s h hh hl
  refine ⟨by rw [r1], by rw [r1], ?_⟩
  have hh2 : findHandler (updateStates (updateStates bs id s) id s) id = some h := by
    rw [updateStates_idem]
    exact hh
  have hl2 : firstLit (updateStates (updateStates bs id s) id s) h = none := by
    rw [updateStates_idem]
    exact hl
  rw [setLightState_backends, r1,
    setLightState_found_unlit (updateStates bs id s) id s h hh2 hl2,
    updateStates_idem]

/-- C2 witness: writing the unlit state to BACKLIGHT renders that state
(hardware off) and a second identical call changes nothing. -/
theorem setLightState_off_idempotent_witness :
    (setLightState backendsInit BACKLIGHT offState).writes =
      applyHandler HandlerKind.backlight offState ∧
    (setLightState backendsInit BACKLIGHT offState).status = Status.ok ∧
    setLightState (setLightState backendsInit BACKLIGHT offState).backends
      BACKLIGHT offState = setLightState backendsInit BACKLIGHT offState :=
  setLightState_off_idempotent backendsInit BACKLIGHT offState
    HandlerKind.backlight (by decide) (by decide)

/-- C1: the rendered state is always the first entry in table order whose
handler equals the updated class's handler and whose state is lit; in the
shared notification-style group, lighting ATTENTION over a lit BATTERY
renders ATTENTION's state, and clearing ATTENTION afterwards renders the
still-lit BATTERY state with no further call. -/
theorem setLightState_priority :
    (∀ (bs : List LightBackend) (id : Int) (s : HwLightState)
        (h : HandlerKind) (b : LightBackend),
      findHandler (updateStates bs id s) id = some h →
      firstLit (updateStates bs id s) h = some b →
      (setLightState bs id s).writes = applyHandler h b.state ∧
      (setLightState bs id s).status = Status.ok) ∧
    (∀ sLow sHi sOff : HwLightState,
      isLit sLow = true → isLit sHi = true → isLit sOff = false →
      (setLightState backendsInit BATTERY sLow).writes =
        handleNotification sLow ∧
      (setLightState (setLightState backendsInit BATTERY sLow).backends
        ATTENTION sHi).writes = handleNotification sHi ∧
      (setLightState (setLightState (setLightState backendsInit BATTERY
        sLow).backends ATTENTION sHi).backends ATTENTION sOff).writes =
        handleNotification sLow) := by
  constructor
  · intro bs id s h b hh hl
    rw [setLightState_found_lit bs id s h b hh hl]
    exact ⟨rfl, rfl⟩
  · intro sLow sHi sOff hLow hHi hOff
    have f1 : firstLit (updateStates backendsInit BATTERY sLow)
        HandlerKind.notificationStyle =
        some ⟨BATTERY, HandlerKind.notificationStyle, sLow⟩ := by
      show firstLit (backendsWith initState initState sLow initState initState)
        HandlerKind.notificationStyle = _
      simp [firstLit, backendsWith, List.find?, hLow,
        show isLit initState = false from rfl]
    have r1 := setLightState_found_lit backendsInit BATTERY sLow
      HandlerKind.notificationStyle
      ⟨BATTERY, HandlerKind.notificationStyle, sLow⟩ rfl f1
    have hb1 : (setLightState backendsInit BATTERY sLow).backends =
        backendsWith initState initState sLow initState initState := by
      rw [setLightState_backends]
      rfl
    rw [hb1]
    have f2 : firstLit (updateStates
        (backendsWith initState initState sLow initState initState)
        ATTENTION sHi) HandlerKind.notificationStyle =
        some ⟨ATTENTION, HandlerKind.notificationStyle, sHi⟩ := by
      show firstLit (backendsWith sHi initState sLow initState initState)
        HandlerKind.notificationStyle = _
      simp [firstLit, backendsWith, List.find?, hHi]
    have r2 := setLightState_found_lit
      (backendsWith initState initState sLow initState initState)
      ATTENTION sHi HandlerKind.notificationStyle
      ⟨ATTENTION, HandlerKind.notificationStyle, sHi⟩ rfl f2
    have hb2 : (setLightState
        (backendsWith initState initState sLow initState initState)
        ATTENTION sHi).backends =
        backendsWith sHi initState sLow initState initState := by
      rw [setLightState_backends]
      rfl
    rw [hb2]
    have f3 : firstLit (updateStates
        (backendsWith sHi initState sLow initState initState)
        ATTENTION sOff) HandlerKind.notificationStyle =
        some ⟨BATTERY, HandlerKind.notificationStyle, sLow⟩ := by
      show firstLit (backendsWith sOff initState sLow initState initState)
        HandlerKind.notificationStyle = _
      simp [firstLit, backendsWith, List.find?, hLow, hOff,
        show isLit initState = false from rfl]
    have r3 := setLightState_found_lit
      (backendsWith sHi initState sLow initState initState)
      ATTENTION sOff HandlerKind.notificationStyle
      ⟨BATTERY, HandlerKind.notificationStyle, sLow⟩ rfl f3
    rw [r1, r2, r3]
    exact ⟨rfl, rfl, rfl⟩

/-- C1 witness: blue battery light, red attention light, then clearing
attention falls back to blue. -/
theorem setLightState_priority_witness :
    (setLightState (setLightState (setLightState backendsInit BATTERY
      blueState).backends ATTENTION redState).backends ATTENTION
      offState).writes = handleNotification blueState :=
  (setLightState_priority.2 blueState redState offState (by decide)
    (by decide) (by decide)).2.2

end Lights

namespace Lights

/-! ### C7: the effect of halving the alpha channel -/

lemma getBrightness_packColor (a r g b : Nat) (fm : FlashMode)
    (onMs offMs bm : Int) (ha : a < 256) (hr : r < 256) (hg : g < 256)
    (hb : b < 256) :
    getBrightness ⟨packColor a r g b, fm, onMs, offMs, bm⟩ =
      (77 * alphaScale r a + 150 * alphaScale g a + 29 * alphaScale b a) / 256 := by
  have hA : packColor a r g b / 2 ^ 24 % 256 = a := by unfold packColor; omega
  have hR : packColor a r g b / 2 ^ 16 % 256 = r := by unfold packColor; omega
  have hG : packColor a r g b / 2 ^ 8 % 256 = g := by unfold packColor; omega
  have hB : packColor a r g b % 256 = b := by unfold packColor; omega
  unfold getBrightness alphaScale
  simp only [Nat.shiftRight_eq_div_pow, land_ff_eq_mod, ne_eq, ite_not]
  rw [hA, hR, hG, hB]

lemma mul_div_two_le (k x : Nat) : k * (x / 2) ≤ k * x / 2 := by
  rw [Nat.le_div_iff_mul_le (by norm_num : (0:Nat) < 2)]
  calc k * (x / 2) * 2 = k * (x / 2 * 2) := by ring
    _ ≤ k * x := Nat.mul_le_mul_left k (Nat.div_mul_le_self x 2)

/-- Channel-wise: dimming by the truncated half alpha gives at most half the
dimmed channel. -/
lemma alphaScale_half_le (c a : Nat) (ha : a < 256) :
    alphaScale c (a / 2) ≤ alphaScale c a / 2 := by
  unfold alphaScale
  have ha2 : ¬ (a / 2 = 255) := by omega
  rw [if_neg ha2]
  by_cases h : a = 255
  · subst h
    rw [if_pos rfl]
    have h1 : c * (255 / 2) / 255 = c * 127 / 255 := by norm_num
    have h2 : c * 127 / 255 ≤ c * 127 / 254 :=
      Nat.div_le_div_left (by norm_num) (by norm_num)
    have h3 : c * 127 / 254 = c / 2 := by
      rw [show c * 127 = 127 * c by ring, show (254:Nat) = 127 * 2 by norm_num,
        Nat.mul_div_mul_left c 2 (by norm_num)]
    omega
  · rw [if_neg h]
    calc c * (a / 2) / 255 ≤ c * a / 2 / 255 :=
          Nat.div_le_div_right (mul_div_two_le c a)
      _ = c * a / 510 := by rw [Nat.div_div_eq_div_mul]
      _ = c * a / 255 / 2 := by rw [Nat.div_div_eq_div_mul]

/-- The truncating luma of channel-wise halves is at most half the luma. -/
lemma luma_half_le (r1 g1 b1 r2 g2 b2 : Nat) (h1 : r2 ≤ r1 / 2)
    (h2 : g2 ≤ g1 / 2) (h3 : b2 ≤ b1 / 2) :
    (77 * r2 + 150 * g2 + 29 * b2) / 256 ≤
      (77 * r1 + 150 * g1 + 29 * b1) / 256 / 2 := by
  have k1 : 77 * r2 ≤ 77 * r1 / 2 :=
    le_trans (Nat.mul_le_mul_left 77 h1) (mul_div_two_le 77 r1)
  have k2 : 150 * g2 ≤ 150 * g1 / 2 :=
    le_trans (Nat.mul_le_mul_left 150 h2) (mul_div_two_le 150 g1)
  have k3 : 29 * b2 ≤ 29 * b1 / 2 :=
    le_trans (Nat.mul_le_mul_left 29 h3) (mul_div_two_le 29 b1)
  have ksum : 77 * r2 + 150 * g2 + 29 * b2 ≤
      (77 * r1 + 150 * g1 + 29 * b1) / 2 := by omega
  calc (77 * r2 + 150 * g2 + 29 * b2) / 256 ≤
        (77 * r1 + 150 * g1 + 29 * b1) / 2 / 256 := Nat.div_le_div_right ksum
    _ = (77 * r1 + 150 * g1 + 29 * b1) / 512 := by rw [Nat.div_div_eq_div_mul]
    _ = (77 * r1 + 150 * g1 + 29 * b1) / 256 / 2 := by
        rw [Nat.div_div_eq_div_mul]

/-- Range scaling preserves the at-most-half relation. -/
lemma scaleBrightness_half_le (x y m : Nat) (h : x ≤ y / 2) :
    scaleBrightness x m ≤ scaleBrightness y m / 2 := by
  unfold scaleBrightness
  have h1 : x * m ≤ y * m / 2 := by
    calc x * m ≤ y / 2 * m := Nat.mul_le_mul_right m h
      _ = m * (y / 2) := by ring
      _ ≤ m * y / 2 := mul_div_two_le m y
      _ = y * m / 2 := by rw [Nat.mul_comm]
  calc x * m / 0xFF ≤ y * m / 2 / 0xFF := Nat.div_le_div_right h1
    _ = y * m / 510 := by rw [Nat.div_div_eq_div_mul]
    _ = y * m / 0xFF / 2 := by rw [Nat.div_div_eq_div_mul]

/-- C7 counterexample: for color 0xFF008000 the claimed exact halving fails,
in the LED range (36 versus floor(75/2) = 37) and in the backlight range
(578 versus floor(1204/2) = 602). -/
theorem scaledBrightness_half_alpha_counterexample :
    ¬ (getScaledBrightness ⟨0x7F008000, FlashMode.NONE, 0, 0, 0⟩ 255 =
        getScaledBrightness ⟨0xFF008000, FlashMode.NONE, 0, 0, 0⟩ 255 / 2) ∧
    ¬ (getScaledBrightness ⟨0x7F008000, FlashMode.NONE, 0, 0, 0⟩ 4095 =
        getScaledBrightness ⟨0xFF008000, FlashMode.NONE, 0, 0, 0⟩ 4095 / 2) := by
  constructor
  · decide
  · decide

/-- C7 amended: halving the alpha component with fixed RGB yields a scaled
brightness of at most (rather than exactly) the truncated half of the
original scaled brightness, in every target range. -/
theorem scaledBrightness_half_alpha_le (a r g b maxB : Nat) (fm : FlashMode)
    (onMs offMs bm : Int) (ha : a < 256) (hr : r < 256) (hg : g < 256)
    (hb : b < 256) :
    getScaledBrightness ⟨packColor (a / 2) r g b, fm, onMs, offMs, bm⟩ maxB ≤
      getScaledBrightness ⟨packColor a r g b, fm, onMs, offMs, bm⟩ maxB / 2 := by
  unfold getScaledBrightness
  rw [getBrightness_packColor (a / 2) r g b fm onMs offMs bm (by omega) hr hg hb,
    getBrightness_packColor a r g b fm onMs offMs bm ha hr hg hb]
  exact scaleBrightness_half_le _ _ maxB
    (luma_half_le (alphaScale r a) (alphaScale g a) (alphaScale b a) _ _ _
      (alphaScale_half_le r a ha) (alphaScale_half_le g a ha)
      (alphaScale_half_le b a ha))

/-- C7 witness: the amended bound at the counterexample color, 36 ≤ 37. -/
theorem scaledBrightness_half_alpha_le_witness :
    getScaledBrightness ⟨packColor (255 / 2) 0 128 0, FlashMode.NONE, 0, 0, 0⟩
        255 ≤
      getScaledBrightness ⟨packColor 255 0 128 0, FlashMode.NONE, 0, 0, 0⟩
        255 / 2 :=
  scaledBrightness_half_alpha_le 255 0 128 0 255 FlashMode.NONE 0 0 0
    (by decide) (by decide) (by decide) (by decide)

end Lights
